import Mathlib

set_option maxRecDepth 4000

/-!
# Neotron Desktop BIOS — shallow embedding

A shallow embedding of the hardware-emulation layer of the Neotron
Desktop BIOS (`src/main.rs`): the video mode state machine, the palette
store, the framebuffer bounds checks, the block-device emulation and the
glyph-cache slot formula.  Mutable statics (`VIDEO_MODE`, `PALETTE`,
`HARDWARE`, `FRAMEBUFFER`) become fields of an explicit state record and
each `extern "C"` entry point becomes a pure function from state (and
arguments) to result and next state.
-/

namespace NeotronBios

/-- Video timings, from the `neotron_common_bios::video::Timing` enum used by
`main.rs` (an external dependency whose variants appear in the source:
`T640x480`, `T640x400`, and at least one further timing caught by the
wildcard arm of `video_set_mode`; the crate defines `T800x600`). -/
inductive Timing where
  | T640x480
  | T640x400
  | T800x600
  deriving DecidableEq, Repr

/-- Text/bitmap formats, from `neotron_common_bios::video::Format`.  The
source matches on `Text8x16` and `Text8x8`; the crate's remaining chunky
bitmap variants are all caught by the wildcard arm of `video_set_mode`. -/
inductive Format where
  | Text8x16
  | Text8x8
  | Chunky32
  | Chunky16
  | Chunky8
  | Chunky4
  | Chunky2
  | Chunky1
  deriving DecidableEq, Repr

/-- A video mode: a (timing, format) pair, as in
`neotron_common_bios::video::Mode`. -/
structure Mode where
  timing : Timing
  format : Format
  deriving DecidableEq, Repr

/-- The discriminant of a `Timing` (its `as u8` value in the crate). -/
def Timing.code : Timing → Nat
  | .T640x480 => 0
  | .T640x400 => 1
  | .T800x600 => 2

/-- The discriminant of a `Format` (its `as u8` value in the crate). -/
def Format.code : Format → Nat
  | .Text8x16 => 0
  | .Text8x8 => 1
  | .Chunky32 => 2
  | .Chunky16 => 3
  | .Chunky8 => 4
  | .Chunky4 => 5
  | .Chunky2 => 6
  | .Chunky1 => 7

/-- Inverse of `Timing.code` on valid codes. -/
def Timing.fromCode : Nat → Timing
  | 0 => .T640x480
  | 1 => .T640x400
  | _ => .T800x600

/-- Inverse of `Format.code` on valid codes. -/
def Format.fromCode : Nat → Format
  | 0 => .Text8x16
  | 1 => .Text8x8
  | 2 => .Chunky32
  | 3 => .Chunky16
  | 4 => .Chunky8
  | 5 => .Chunky4
  | 6 => .Chunky2
  | _ => .Chunky1

/-- `Mode::as_u8`: the crate packs timing and format injectively into one
byte, `(timing << 3) | format` with `format < 8`.  Modelled as
`timing * 8 + format` over the discriminants. -/
def Mode.asU8 (m : Mode) : Nat := m.timing.code * 8 + m.format.code

/-- `Mode::from_u8`: recover the (timing, format) pair from a packed mode
byte.  Inverse of `Mode.asU8` on the codes the program stores. -/
def Mode.fromU8 (v : Nat) : Mode :=
  { timing := Timing.fromCode (v / 8), format := Format.fromCode (v % 8) }

/-- `Mode::new(timing, format)`. -/
def Mode.new (t : Timing) (f : Format) : Mode := { timing := t, format := f }

/-- A packed 24-bit RGB colour (`neotron_common_bios::video::RGBColour`,
a newtype over `u32`). -/
structure RGBColour where
  packed : Nat
  deriving DecidableEq, Repr

/-- `RGBColour::as_packed`. -/
def RGBColour.asPacked (c : RGBColour) : Nat := c.packed

/-- `RGBColour::from_packed`. -/
def RGBColour.fromPacked (v : Nat) : RGBColour := { packed := v }

/-- The error taxonomy (`neotron_common_bios::Error`) as used by `main.rs`. -/
inductive Error where
  | Unimplemented
  | UnsupportedConfiguration (mode : Nat)
  | InvalidDevice
  | BlockOutOfBounds
  | DeviceError (code : Nat)
  deriving DecidableEq, Repr

/-- `ApiResult<T>` — the FFI-safe result type every entry point returns. -/
inductive ApiResult (T : Type) where
  | ok (value : T)
  | err (error : Error)
  deriving DecidableEq, Repr

/-- A disk image file handle: the backing bytes plus the current seek
position of the open `std::fs::File`. -/
structure DiskFile where
  data : List Nat
  pos : Nat
  deriving DecidableEq, Repr

/-- The mutable statics of `main.rs` gathered into one state record:
`VIDEO_MODE: AtomicU8` (stored as its `u8` value), `PALETTE:
[AtomicU32; 256]` (stored as the packed `u32` values), the `FRAMEBUFFER`
byte arena contents, and `HARDWARE.disk_file: Option<File>`. -/
structure BiosState where
  videoMode : Nat
  palette : List Nat
  framebuffer : List Nat
  diskFile : Option DiskFile
  deriving DecidableEq, Repr

/-- `BLOCK_SIZE`: we only have normal 512-byte sectored emulated disks. -/
def BLOCK_SIZE : Nat := 512

/-- `video_is_valid_mode`: does this BIOS support this video mode?  The
source compares the mode against `Mode::new(T640x480, Text8x16)`. -/
def video_is_valid_mode (mode : Mode) : Bool :=
  mode = Mode.new Timing.T640x480 Format.Text8x16

/-- Second half of `video_set_mode`: the `match mode.format()` statement,
reached only when the timing check passed. -/
def video_set_mode_formatCheck (mode : Mode) (st : BiosState) :
    ApiResult Unit × BiosState :=
  match mode.format with
  | Format.Text8x16 =>
      (ApiResult.ok (), { st with videoMode := mode.asU8 })
  | Format.Text8x8 =>
      (ApiResult.ok (), { st with videoMode := mode.asU8 })
  | _ =>
      (ApiResult.err (Error.UnsupportedConfiguration mode.asU8), st)

/-- `video_set_mode`: validate the timing (`T640x480` or `T640x400`), then
the format (`Text8x16` or `Text8x8`); on success store `mode.as_u8()` into
`VIDEO_MODE`, otherwise return `UnsupportedConfiguration` with the raw mode
byte and leave the state alone. -/
def video_set_mode (mode : Mode) (st : BiosState) :
    ApiResult Unit × BiosState :=
  match mode.timing with
  | Timing.T640x480 => video_set_mode_formatCheck mode st
  | Timing.T640x400 => video_set_mode_formatCheck mode st
  | _ =>
      (ApiResult.err (Error.UnsupportedConfiguration mode.asU8), st)

/-- `video_get_mode`: load `VIDEO_MODE` and decode it with `Mode::from_u8`. -/
def video_get_mode (st : BiosState) : Mode := Mode.fromU8 st.videoMode

/-! ## Palette entry points -/

/-- `video_get_palette(index)`: look the slot up in `PALETTE` (256 entries)
and return the colour, or `None` when the index is out of range.  The
FFI-safe `FfiOption` is modelled as `Option`. -/
def video_get_palette (index : Nat) (st : BiosState) : Option RGBColour :=
  (st.palette.get? index).map RGBColour.fromPacked

/-- `video_set_palette(index, rgb)`: store `rgb.as_packed()` into slot
`index` when it exists, otherwise do nothing (`if let Some(e) =
PALETTE.get(..)`). -/
def video_set_palette (index : Nat) (rgb : RGBColour) (st : BiosState) :
    BiosState :=
  { st with palette := st.palette.set index rgb.asPacked }

/-- The store loop of `video_set_whole_palette`: walk `PALETTE.iter()`
zipped with the supplied slice, overwriting each paired entry and leaving
the unpaired tail of the palette untouched. -/
def zipStorePalette (palette : List Nat) (colours : List RGBColour) :
    List Nat :=
  match palette, colours with
  | [], _ => []
  | p, [] => p
  | _ :: ps, c :: cs => c.asPacked :: zipStorePalette ps cs

/-- `video_set_whole_palette(palette, length)`: bulk-set as many entries as
the supplied colour list covers. -/
def video_set_whole_palette (colours : List RGBColour) (st : BiosState) :
    BiosState :=
  { st with palette := zipStorePalette st.palette colours }

/-! ## File primitives

The block-device entry points use three `std::fs::File` operations, which we
model by the documented semantics of the Rust standard library. -/

/-- `neotron_common_bios::block_dev::DeviceType` (only the variant the
source constructs). -/
inductive DeviceType where
  | HardDiskDrive
  deriving DecidableEq, Repr

/-- `neotron_common_bios::block_dev::DeviceInfo`, as filled in by
`block_dev_get_info`. -/
structure DeviceInfo where
  name : String
  deviceType : DeviceType
  blockSize : Nat
  numBlocks : Nat
  ejectable : Bool
  removable : Bool
  mediaPresent : Bool
  readOnly : Bool
  deriving DecidableEq, Repr

/-- `block_dev_get_info(dev_id)`: device 0 backed by a file reports a hard
disk of `file length / BLOCK_SIZE` blocks of `BLOCK_SIZE` bytes, media
present, not removable, not ejectable; device 0 without a file, and every
other device id, reports `None`. -/
def block_dev_get_info (dev_id : Nat) (st : BiosState) : Option DeviceInfo :=
  if dev_id = 0 then
    match st.diskFile with
    | some file =>
        some
          { name := "File0"
            deviceType := DeviceType.HardDiskDrive
            blockSize := BLOCK_SIZE
            numBlocks := file.data.length / BLOCK_SIZE
            ejectable := false
            removable := false
            mediaPresent := true
            readOnly := false }
    | none => none
  else
    none

/-- `block_dev_eject(dev_id)`: unconditionally `Ok(())`, touching nothing. -/
def block_dev_eject (dev_id : Nat) (st : BiosState) :
    ApiResult Unit × BiosState :=
  (ApiResult.ok (), st)

/-- `MyApp::NUM_FG`: text foreground colours use only the first 16 palette
entries. -/
def NUM_FG : Nat := 16

/-- The glyph-cache slot formula of `MyApp::on_update`:
`slot = glyph * NUM_FG + fg_idx`.  `MyApp::render_font` fills the texture
buffer with an incrementing `slot` over the nested loops
`for glyph in 0..=255 { for fg in 0..16 }`, which visits exactly these
values in order. -/
def glyphSlot (glyph fg : Nat) : Nat := glyph * NUM_FG + fg

/-! ## Concrete states used by the witnesses -/

/-- A fresh palette state: 256 black entries (the concrete values of the
default palette are irrelevant to the claims). -/
def testPalette : List Nat := List.replicate 256 0

/-- A state with an empty framebuffer model and no disk. -/
def st0 : BiosState :=
  { videoMode := 0, palette := testPalette, framebuffer := [], diskFile := none }

/-- The length of the test palette. -/
theorem testPalette_length : testPalette.length = 256 := by
  rw [testPalette, List.length_replicate]

/-- `st0` has a full 256-entry palette. -/
theorem st0_palette_length : st0.palette.length = 256 := testPalette_length

/-- Auxiliary: pointwise description of the `video_set_whole_palette` store
loop — entry `j` becomes the packed `j`-th supplied colour when both lists
reach index `j`, and is untouched otherwise. -/
theorem zipStorePalette_getElem? (palette : List Nat)
    (colours : List RGBColour) (j : Nat) :
    (zipStorePalette palette colours)[j]? =
      if j < colours.length ∧ j < palette.length then
        colours[j]?.map RGBColour.asPacked
      else palette[j]? := by
  induction palette generalizing colours j with
  | nil => cases colours <;> simp [zipStorePalette]
  | cons p ps ih =>
    cases colours with
    | nil => simp [zipStorePalette]
    | cons c cs =>
      cases j with
      | zero => simp [zipStorePalette]
      | succ j => simp [zipStorePalette, ih, Nat.succ_lt_succ_iff]

/-- Claim C1: each of the four supported (timing, format) combinations is
accepted by `video_set_mode` and then read back exactly by
`video_get_mode`; every other combination is rejected with
`UnsupportedConfiguration` carrying the raw mode byte, the state (and
hence `video_get_mode`) unchanged. -/
theorem video_mode_set_get_spec (st : BiosState) (m : Mode) :
    (((m.timing = Timing.T640x480 ∨ m.timing = Timing.T640x400) ∧
        (m.format = Format.Text8x16 ∨ m.format = Format.Text8x8)) →
      (video_set_mode m st).1 = ApiResult.ok () ∧
        video_get_mode (video_set_mode m st).2 = m) ∧
    (¬ ((m.timing = Timing.T640x480 ∨ m.timing = Timing.T640x400) ∧
        (m.format = Format.Text8x16 ∨ m.format = Format.Text8x8)) →
      video_set_mode m st =
        (ApiResult.err (Error.UnsupportedConfiguration m.asU8), st)) := by
  obtain ⟨t, f⟩ := m
  cases t <;> cases f <;>
    simp [video_set_mode, video_set_mode_formatCheck, video_get_mode,
      Mode.fromU8, Mode.asU8, Timing.code, Format.code, Timing.fromCode,
      Format.fromCode]

/-- Claim C9: `video_is_valid_mode` holds for exactly the mode
(`T640x480`, `Text8x16`); yet `video_set_mode` accepts
(`T640x400`, `Text8x8`), a mode `video_is_valid_mode` reports invalid. -/
theorem video_is_valid_mode_spec (st : BiosState) (m : Mode) :
    (video_is_valid_mode m = true ↔
      m = Mode.new Timing.T640x480 Format.Text8x16) ∧
    (video_set_mode (Mode.new Timing.T640x400 Format.Text8x8) st).1 =
      ApiResult.ok () ∧
    video_is_valid_mode (Mode.new Timing.T640x400 Format.Text8x8) = false := by
  refine ⟨?_, ?_, by decide⟩
  · simp [video_is_valid_mode]
  · simp [video_set_mode, video_set_mode_formatCheck, Mode.new]

/-- Claim C5: writing palette slot `i` with colour `c` and reading it back
returns `Some c`, for every index `0 ≤ i < 256` over a full 256-entry
palette. -/
theorem video_palette_roundtrip (st : BiosState) (i : Nat) (c : RGBColour)
    (hi : i < 256) (hp : st.palette.length = 256) :
    video_get_palette i (video_set_palette i c st) = some c := by
  have hlen : i < st.palette.length := by omega
  show ((st.palette.set i c.asPacked).get? i).map RGBColour.fromPacked = some c
  rw [List.get?_eq_getElem?, List.getElem?_set_eq_of_lt c.asPacked hlen]
  rfl

/-- Claim C5 witness: the round trip at slot 7 with packed colour 123 on a
concrete state. -/
theorem video_palette_roundtrip_witness :
    video_get_palette 7 (video_set_palette 7 (RGBColour.fromPacked 123) st0) =
      some (RGBColour.fromPacked 123) :=
  video_palette_roundtrip st0 7 (RGBColour.fromPacked 123) (by decide)
    st0_palette_length

/-- Claim C6: `video_set_whole_palette` with a colour list of length `L`
replaces palette entries `0 ≤ j < min L 256` with the corresponding
supplied colours, leaves entries `min L 256 ≤ j` unchanged, and touches no
other emulator state. -/
theorem video_set_whole_palette_spec (st : BiosState)
    (colours : List RGBColour) (hp : st.palette.length = 256) :
    (∀ j, j < min colours.length 256 →
      (video_set_whole_palette colours st).palette[j]? =
        colours[j]?.map RGBColour.asPacked) ∧
    (∀ j, min colours.length 256 ≤ j →
      (video_set_whole_palette colours st).palette[j]? = st.palette[j]?) ∧
    (video_set_whole_palette colours st).videoMode = st.videoMode ∧
    (video_set_whole_palette colours st).framebuffer = st.framebuffer ∧
    (video_set_whole_palette colours st).diskFile = st.diskFile := by
  refine ⟨?_, ?_, rfl, rfl, rfl⟩
  · intro j hj
    show (zipStorePalette st.palette colours)[j]? = _
    rw [zipStorePalette_getElem?, if_pos ⟨by omega, by omega⟩]
  · intro j hj
    show (zipStorePalette st.palette colours)[j]? = _
    rw [zipStorePalette_getElem?, if_neg (by omega)]

/-- Claim C6 witness: bulk-setting one colour on a concrete state rewrites slot 0
and preserves slot 1. -/
theorem video_set_whole_palette_witness :
    (video_set_whole_palette [RGBColour.fromPacked 5] st0).palette[0]? =
        [RGBColour.fromPacked 5][0]?.map RGBColour.asPacked ∧
      (video_set_whole_palette [RGBColour.fromPacked 5] st0).palette[1]? =
        st0.palette[1]? :=
  ⟨(video_set_whole_palette_spec st0 [RGBColour.fromPacked 5]
      st0_palette_length).1 0 (by simp),
    (video_set_whole_palette_spec st0 [RGBColour.fromPacked 5]
      st0_palette_length).2.1 1 (by simp)⟩

/-- Claim C7: `block_dev_get_info 0` reports `none` without a backing file, and
with a backing file of `N` bytes reports a 512-byte-block device of
`N / 512` blocks (truncating division), media present, not removable, not
ejectable; any other device id reports `none`. -/
theorem block_dev_get_info_spec (st : BiosState) (d : Nat) (file : DiskFile) :
    (st.diskFile = none → block_dev_get_info 0 st = none) ∧
    (st.diskFile = some file →
      block_dev_get_info 0 st = some
        { name := "File0"
          deviceType := DeviceType.HardDiskDrive
          blockSize := 512
          numBlocks := file.data.length / 512
          ejectable := false
          removable := false
          mediaPresent := true
          readOnly := false }) ∧
    (d ≠ 0 → block_dev_get_info d st = none) := by
  refine ⟨?_, ?_, ?_⟩ <;> intro h <;>
    simp [block_dev_get_info, h, BLOCK_SIZE]

/-- Claim C10: `block_dev_eject` returns `Ok(())` for every device id and every
state — including ids other than 0 and the diskless state — and changes
nothing. -/
theorem block_dev_eject_spec (d : Nat) (st : BiosState) :
    block_dev_eject d st = (ApiResult.ok (), st) := rfl

/-- Claim C8: the glyph-cache slot formula `slot = glyph * NUM_FG + fg` is
injective for glyphs in [0,255] and foregrounds in [0,15], producing 4096
distinct slots. -/
theorem glyphSlot_injective :
    (∀ g1 fg1 g2 fg2, g1 ≤ 255 → fg1 ≤ 15 → g2 ≤ 255 → fg2 ≤ 15 →
      glyphSlot g1 fg1 = glyphSlot g2 fg2 → g1 = g2 ∧ fg1 = fg2) ∧
    ((Finset.range 256 ×ˢ Finset.range 16).image
      (fun p => glyphSlot p.1 p.2)).card = 4096 := by
  constructor
  · intro g1 fg1 g2 fg2 h1 h2 h3 h4 h
    simp only [glyphSlot, NUM_FG] at h
    omega
  · have hinj : Set.InjOn (fun p : Nat × Nat => glyphSlot p.1 p.2)
        ((Finset.range 256 ×ˢ Finset.range 16 : Finset (Nat × Nat)) :
          Set (Nat × Nat)) := by
      intro p hp q hq h
      simp only [Finset.mem_coe, Finset.mem_product, Finset.mem_range] at hp hq
      obtain ⟨pa, pb⟩ := p
      obtain ⟨qa, qb⟩ := q
      simp only [glyphSlot, NUM_FG] at h
      simp only [Prod.mk.injEq]
      omega
    rw [Finset.card_image_of_injOn hinj]
    simp

